import Mathlib

/-!
Verification development for the peaceful-meditation content pipeline
(api/src: main.py, mux_upload.py, merge_av.py, music_generation.py,
viz_generation.py; functions/peaceful-video-generation/src/main.py).

Each definition below is a shallow embedding of one piece of the Python
source; external effects (HTTP calls, sleeps, the filesystem) are made
explicit as scripted inputs and recorded outputs.
-/

namespace PeacefulPipeline

/-- Asset status as reported by the video platform (asset.data.status).
The platform reports ready and errored as terminal; everything else is
modeled as preparing, which the source treats uniformly via its else
branch. -/
inductive AssetStatus
  | preparing
  | ready
  | errored
deriving DecidableEq, Repr

/-- The fields of the asset record consumed by upload_to_mux: the status,
the error detail (asset.data.errors, rendered as a string) and the
playback id list (asset.data.playback_ids). -/
structure AssetData where
  status : AssetStatus
  errors : String
  playbackIds : List String
deriving DecidableEq, Repr

/-- One scripted outcome of an assets_api.get_asset call: either the call
raised an exception, or it returned an asset record. -/
inductive PollStep
  | raiseStep (msg : String)
  | asset (d : AssetData)
deriving DecidableEq, Repr

/-- The asset-readiness polling loop of upload_to_mux in
api/src/mux_upload.py, lines 141-158.  fuel is the remaining retry budget
(max_retries - retry_count), i indexes the next scripted get_asset
outcome, slept accumulates the seconds slept, and last is the current
value of the Python variable asset (which survives across iterations).
Any exception inside the try block -- including the raise executed on the
errored status at line 150 -- is caught by the except clause at line 155,
which sleeps 5 seconds and increments retry_count.  Returns the final
asset variable, the number of get_asset calls made, and the seconds
slept. -/
def assetLoopMux (script : Nat → PollStep) :
    Nat → Nat → Nat → Option AssetData → Option AssetData × Nat × Nat
  | 0, i, slept, last => (last, i, slept)
  | fuel + 1, i, slept, last =>
    match script i with
    | PollStep.raiseStep _ => assetLoopMux script fuel (i + 1) (slept + 5) last
    | PollStep.asset d =>
      match d.status with
      | AssetStatus.ready => (some d, i + 1, slept)
      | AssetStatus.errored => assetLoopMux script fuel (i + 1) (slept + 5) (some d)
      | AssetStatus.preparing => assetLoopMux script fuel (i + 1) (slept + 5) (some d)

/-- The tail of upload_to_mux in api/src/mux_upload.py, lines 141-164: run
the asset polling loop with budget 30, then check
(not asset or asset.data.status != ready) and raise the timeout message,
or read asset.data.playback_ids[0].id (an out-of-range index raises).
Returns the outcome, the number of get_asset calls, and the seconds
slept. -/
def assetPhaseMux (script : Nat → PollStep) : Except String String × Nat × Nat :=
  match assetLoopMux script 30 0 0 none with
  | (some d, n, t) =>
    if d.status = AssetStatus.ready then
      match d.playbackIds with
      | pid :: _ => (Except.ok pid, n, t)
      | [] => (Except.error "IndexError: list index out of range", n, t)
    else (Except.error "Asset failed to become ready in time", n, t)
  | (none, n, t) => (Except.error "Asset failed to become ready in time", n, t)

/-- The asset-readiness polling loop of upload_to_mux in api/src/main.py,
lines 198-208.  There is no try block here: an exception from get_asset
propagates, and the errored status raises
(Asset creation failed: followed by the error detail) immediately. -/
def assetLoopMain (script : Nat → PollStep) :
    Nat → Nat → Nat → Option AssetData → Except String (Option AssetData) × Nat × Nat
  | 0, i, slept, last => (Except.ok last, i, slept)
  | fuel + 1, i, slept, _ =>
    match script i with
    | PollStep.raiseStep m => (Except.error m, i + 1, slept)
    | PollStep.asset d =>
      match d.status with
      | AssetStatus.ready => (Except.ok (some d), i + 1, slept)
      | AssetStatus.errored =>
        (Except.error ("Asset creation failed: " ++ d.errors), i + 1, slept)
      | AssetStatus.preparing => assetLoopMain script fuel (i + 1) (slept + 5) (some d)

/-- The tail of upload_to_mux in api/src/main.py, lines 198-213: the asset
polling loop with budget 30 followed by the ready check and the
playback-id extraction. -/
def assetPhaseMain (script : Nat → PollStep) : Except String String × Nat × Nat :=
  match assetLoopMain script 30 0 0 none with
  | (Except.error m, n, t) => (Except.error m, n, t)
  | (Except.ok (some d), n, t) =>
    if d.status = AssetStatus.ready then
      match d.playbackIds with
      | pid :: _ => (Except.ok pid, n, t)
      | [] => (Except.error "IndexError: list index out of range", n, t)
    else (Except.error "Asset failed to become ready in time", n, t)
  | (Except.ok none, n, t) => (Except.error "Asset failed to become ready in time", n, t)

/-- One scripted outcome of a get_direct_upload call: either the call
raised, or it returned a record whose asset_id field is the given
optional string (Python falsiness: both None and the empty string count
as no asset id). -/
inductive UploadStep
  | raiseStep (msg : String)
  | statusStep (assetId : Option String)
deriving DecidableEq, Repr

/-- The upload-status polling loop of upload_to_mux in
api/src/mux_upload.py, lines 111-130: at most 30 attempts, 2 second
sleeps, exceptions caught in-loop and counted as attempts.  Returns the
asset id (if one was observed), the number of get_direct_upload calls,
and the seconds slept. -/
def uploadLoopMux (script : Nat → UploadStep) : Nat → Nat → Nat → Option String × Nat × Nat
  | 0, i, slept => (none, i, slept)
  | fuel + 1, i, slept =>
    match script i with
    | UploadStep.raiseStep _ => uploadLoopMux script fuel (i + 1) (slept + 2)
    | UploadStep.statusStep none => uploadLoopMux script fuel (i + 1) (slept + 2)
    | UploadStep.statusStep (some aid) =>
      if aid = "" then uploadLoopMux script fuel (i + 1) (slept + 2)
      else (some aid, i + 1, slept)

/-- Lines 111-133 of api/src/mux_upload.py: the upload-status loop with
budget 30, then (if not asset_id) raise the upload-timeout message. -/
def uploadPhaseMux (script : Nat → UploadStep) : Except String String × Nat × Nat :=
  match uploadLoopMux script 30 0 0 with
  | (some aid, n, t) => (Except.ok aid, n, t)
  | (none, n, t) => (Except.error "Failed to get asset ID after upload", n, t)

/-- The upload-status polling loop of upload_to_mux in api/src/main.py,
lines 183-192 (while max_retries greater than 0): no try block, so a
raised exception propagates immediately. -/
def uploadLoopMain (script : Nat → UploadStep) :
    Nat → Nat → Nat → Except String (Option String) × Nat × Nat
  | 0, i, slept => (Except.ok none, i, slept)
  | fuel + 1, i, slept =>
    match script i with
    | UploadStep.raiseStep m => (Except.error m, i + 1, slept)
    | UploadStep.statusStep none => uploadLoopMain script fuel (i + 1) (slept + 2)
    | UploadStep.statusStep (some aid) =>
      if aid = "" then uploadLoopMain script fuel (i + 1) (slept + 2)
      else (Except.ok (some aid), i + 1, slept)

/-- Lines 183-195 of api/src/main.py: the upload-status loop with budget
30, then (if not asset_id) raise the upload-timeout message. -/
def uploadPhaseMain (script : Nat → UploadStep) : Except String String × Nat × Nat :=
  match uploadLoopMain script 30 0 0 with
  | (Except.error m, n, t) => (Except.error m, n, t)
  | (Except.ok (some aid), n, t) => (Except.ok aid, n, t)
  | (Except.ok none, n, t) => (Except.error "Failed to get asset ID after upload", n, t)

/-- The asset id reported by one scripted upload-status observation, after
Python truthiness (None and the empty string report nothing). -/
def UploadStep.idOf : UploadStep → Option String
  | UploadStep.raiseStep _ => none
  | UploadStep.statusStep none => none
  | UploadStep.statusStep (some aid) => if aid = "" then none else some aid

/-- A scripted get_asset sequence whose first observation is an errored
asset carrying an error detail, followed by ready assets with a playback
id. -/
def erroredThenReadyScript : Nat → PollStep := fun i =>
  if i = 0 then PollStep.asset (AssetData.mk AssetStatus.errored "input file corrupt" [])
  else PollStep.asset (AssetData.mk AssetStatus.ready "" ["playbackA"])

/-- A scripted get_asset sequence every observation of which is an errored
asset carrying an error detail. -/
def allErroredScript : Nat → PollStep := fun _ =>
  PollStep.asset (AssetData.mk AssetStatus.errored "input file corrupt" [])

lemma uploadLoopMux_found (sc : Nat → UploadStep) (a : String) :
    ∀ fuel k i slept, k < fuel → UploadStep.idOf (sc (i + k)) = some a →
      (∀ j, j < k → UploadStep.idOf (sc (i + j)) = none) →
      uploadLoopMux sc fuel i slept = (some a, i + k + 1, slept + 2 * k) := by
  intro fuel
  induction fuel with
  | zero => intro k i slept hk; exact absurd hk (Nat.not_lt_zero k)
  | succ fuel ih =>
    intro k i slept hk ha hmin
    cases k with
    | zero =>
      rw [Nat.add_zero] at ha
      cases hsc : sc i with
      | raiseStep m => rw [hsc] at ha; simp [UploadStep.idOf] at ha
      | statusStep r =>
        cases r with
        | none => rw [hsc] at ha; simp [UploadStep.idOf] at ha
        | some b =>
          rw [hsc] at ha
          by_cases hb : b = ""
          · simp [UploadStep.idOf, hb] at ha
          · simp only [UploadStep.idOf, if_neg hb, Option.some.injEq] at ha
            subst ha
            simp [uploadLoopMux, hsc, hb]
    | succ k =>
      have ha' : UploadStep.idOf (sc (i + 1 + k)) = some a := by
        have h : i + 1 + k = i + (k + 1) := by omega
        rw [h]; exact ha
      have hmin' : ∀ j, j < k → UploadStep.idOf (sc (i + 1 + j)) = none := by
        intro j hj
        have h : i + 1 + j = i + (j + 1) := by omega
        rw [h]; exact hmin (j + 1) (by omega)
      have hk' : k < fuel := by omega
      have h0 := hmin 0 (Nat.succ_pos k)
      rw [Nat.add_zero] at h0
      cases hsc : sc i with
      | raiseStep m =>
        simp only [uploadLoopMux, hsc]
        rw [ih k (i + 1) (slept + 2) hk' ha' hmin']
        simp only [Prod.mk.injEq]
        exact ⟨trivial, by omega, by omega⟩
      | statusStep r =>
        cases r with
        | none =>
          simp only [uploadLoopMux, hsc]
          rw [ih k (i + 1) (slept + 2) hk' ha' hmin']
          simp only [Prod.mk.injEq]
          exact ⟨trivial, by omega, by omega⟩
        | some b =>
          rw [hsc] at h0
          by_cases hb : b = ""
          · simp only [uploadLoopMux, hsc, if_pos hb]
            rw [ih k (i + 1) (slept + 2) hk' ha' hmin']
            simp only [Prod.mk.injEq]
            exact ⟨trivial, by omega, by omega⟩
          · simp [UploadStep.idOf, hb] at h0

lemma uploadLoopMux_exhausted (sc : Nat → UploadStep) :
    ∀ fuel i slept, (∀ j, j < fuel → UploadStep.idOf (sc (i + j)) = none) →
      uploadLoopMux sc fuel i slept = (none, i + fuel, slept + 2 * fuel) := by
  intro fuel
  induction fuel with
  | zero => intro i slept _; simp [uploadLoopMux]
  | succ fuel ih =>
    intro i slept hnone
    have h0 := hnone 0 (Nat.succ_pos fuel)
    rw [Nat.add_zero] at h0
    have hnone' : ∀ j, j < fuel → UploadStep.idOf (sc (i + 1 + j)) = none := by
      intro j hj
      have h : i + 1 + j = i + (j + 1) := by omega
      rw [h]; exact hnone (j + 1) (by omega)
    have step : ∀ r, r = uploadLoopMux sc fuel (i + 1) (slept + 2) →
        r = (none, i + (fuel + 1), slept + 2 * (fuel + 1)) := by
      intro r hr
      rw [hr, ih (i + 1) (slept + 2) hnone']
      simp only [Prod.mk.injEq]
      exact ⟨trivial, by omega, by omega⟩
    cases hsc : sc i with
    | raiseStep m =>
      simp only [uploadLoopMux, hsc]
      exact step _ rfl
    | statusStep r =>
      cases r with
      | none =>
        simp only [uploadLoopMux, hsc]
        exact step _ rfl
      | some b =>
        rw [hsc] at h0
        by_cases hb : b = ""
        · simp only [uploadLoopMux, hsc, if_pos hb]
          exact step _ rfl
        · simp [UploadStep.idOf, hb] at h0

lemma uploadLoopMux_none_count (sc : Nat → UploadStep) :
    ∀ fuel i slept n t, uploadLoopMux sc fuel i slept = (none, n, t) → n = i + fuel := by
  intro fuel
  induction fuel with
  | zero =>
    intro i slept n t h
    simp only [uploadLoopMux, Prod.mk.injEq] at h
    omega
  | succ fuel ih =>
    intro i slept n t h
    cases hsc : sc i with
    | raiseStep m =>
      simp only [uploadLoopMux, hsc] at h
      have := ih (i + 1) (slept + 2) n t h
      omega
    | statusStep r =>
      cases r with
      | none =>
        simp only [uploadLoopMux, hsc] at h
        have := ih (i + 1) (slept + 2) n t h
        omega
      | some b =>
        by_cases hb : b = ""
        · simp only [uploadLoopMux, hsc, if_pos hb] at h
          have := ih (i + 1) (slept + 2) n t h
          omega
        · simp only [uploadLoopMux, hsc, if_neg hb, Prod.mk.injEq] at h
          exact absurd h.1 (by simp)

lemma assetLoopMux_exit (sc : Nat → PollStep) :
    ∀ fuel i slept last la n t, assetLoopMux sc fuel i slept last = (la, n, t) →
      n = i + fuel ∨
      ∃ j d, sc j = PollStep.asset d ∧ d.status = AssetStatus.ready ∧ la = some d := by
  intro fuel
  induction fuel with
  | zero =>
    intro i slept last la n t h
    simp only [assetLoopMux, Prod.mk.injEq] at h
    left; omega
  | succ fuel ih =>
    intro i slept last la n t h
    cases hsc : sc i with
    | raiseStep m =>
      simp only [assetLoopMux, hsc] at h
      rcases ih (i + 1) (slept + 5) last la n t h with hl | hr
      · left; omega
      · right; exact hr
    | asset d =>
      obtain ⟨st, errs, pids⟩ := d
      cases st with
      | ready =>
        simp only [assetLoopMux, hsc, Prod.mk.injEq] at h
        right
        exact ⟨i, ⟨AssetStatus.ready, errs, pids⟩, hsc, rfl, h.1.symm⟩
      | errored =>
        simp only [assetLoopMux, hsc] at h
        rcases ih (i + 1) (slept + 5) (some ⟨AssetStatus.errored, errs, pids⟩) la n t h with hl | hr
        · left; omega
        · right; exact hr
      | preparing =>
        simp only [assetLoopMux, hsc] at h
        rcases ih (i + 1) (slept + 5) (some ⟨AssetStatus.preparing, errs, pids⟩) la n t h with hl | hr
        · left; omega
        · right; exact hr

/-- C1: The claim states that a scripted asset-status sequence reaching
errored makes upload_to_mux fail immediately, carrying the platform error
detail.  In api/src/mux_upload.py this is not what happens: the raise at
line 150 is caught by the except clause of the same loop (line 155), so
an errored observation merely consumes one attempt.  Evaluated at the
failing input (attempt 1 errored with detail, attempt 2 ready), the
operation succeeds with the playback id after 2 attempts; on the
all-errored sequence it fails only after all 30 attempts with the generic
timeout message, never surfacing the detail.  The sibling implementation
in api/src/main.py (lines 201-208, no try block) shows the intended
immediate failure carrying the detail. -/
theorem spec_C1_errored_poll_eval :
    assetPhaseMux erroredThenReadyScript = (Except.ok "playbackA", 2, 5) ∧
    assetPhaseMux allErroredScript =
      (Except.error "Asset failed to become ready in time", 30, 150) ∧
    assetPhaseMain erroredThenReadyScript =
      (Except.error "Asset creation failed: input file corrupt", 1, 0) :=
  ⟨rfl, rfl, rfl⟩

lemma uploadLoopMain_eq_mux (s : Nat → Option String) :
    ∀ fuel i slept,
      uploadLoopMain (fun j => UploadStep.statusStep (s j)) fuel i slept =
        (Except.ok (uploadLoopMux (fun j => UploadStep.statusStep (s j)) fuel i slept).1,
         (uploadLoopMux (fun j => UploadStep.statusStep (s j)) fuel i slept).2.1,
         (uploadLoopMux (fun j => UploadStep.statusStep (s j)) fuel i slept).2.2) := by
  intro fuel
  induction fuel with
  | zero => intro i slept; simp [uploadLoopMain, uploadLoopMux]
  | succ fuel ih =>
    intro i slept
    cases hs : s i with
    | none => simp only [uploadLoopMain, uploadLoopMux, hs]; exact ih (i + 1) (slept + 2)
    | some b =>
      by_cases hb : b = ""
      · simp only [uploadLoopMain, uploadLoopMux, hs, if_pos hb]
        exact ih (i + 1) (slept + 2)
      · simp only [uploadLoopMain, uploadLoopMux, hs, if_neg hb]

lemma uploadPhaseMain_eq_mux (s : Nat → Option String) :
    uploadPhaseMain (fun j => UploadStep.statusStep (s j)) =
      uploadPhaseMux (fun j => UploadStep.statusStep (s j)) := by
  unfold uploadPhaseMain uploadPhaseMux
  rw [uploadLoopMain_eq_mux s 30 0 0]
  rcases hmux : uploadLoopMux (fun j => UploadStep.statusStep (s j)) 30 0 0 with ⟨r, n, t⟩
  cases r <;> rfl

lemma uploadPhaseMux_found (sc : Nat → UploadStep) (k : Nat) (a : String)
    (hk : k < 30) (ha : UploadStep.idOf (sc k) = some a)
    (hmin : ∀ j, j < k → UploadStep.idOf (sc j) = none) :
    uploadPhaseMux sc = (Except.ok a, k + 1, 2 * k) := by
  unfold uploadPhaseMux
  rw [uploadLoopMux_found sc a 30 k 0 0 hk (by simpa using ha)
      (by intro j hj; simpa using hmin j hj)]
  simp

lemma uploadPhaseMux_timeout (sc : Nat → UploadStep)
    (hnone : ∀ j, j < 30 → UploadStep.idOf (sc j) = none) :
    uploadPhaseMux sc = (Except.error "Failed to get asset ID after upload", 30, 60) := by
  unfold uploadPhaseMux
  rw [uploadLoopMux_exhausted sc 30 0 0 (by intro j hj; simpa using hnone j hj)]

/-- C4: after the bytes are uploaded, upload_to_mux polls the upload-id
resource with a fixed 2-second sleep for at most 30 attempts; the loop
stops at the first attempt on which the platform reports an asset id
(returning that id), and if all 30 attempts pass without an asset id it
raises the fatal upload-timeout failure (after 30 attempts and 60 seconds
of sleeping).  Conjuncts 1 and 2 cover api/src/mux_upload.py lines
111-133 (scripts whose attempts may also raise); conjuncts 3 and 4 cover
api/src/main.py lines 183-195 (scripts of plain status observations,
since that loop has no try block). -/
theorem spec_C4_upload_status_poll (sc : Nat → UploadStep) (s : Nat → Option String) :
    (∀ k a, k < 30 → UploadStep.idOf (sc k) = some a →
        (∀ j, j < k → UploadStep.idOf (sc j) = none) →
        uploadPhaseMux sc = (Except.ok a, k + 1, 2 * k)) ∧
    ((∀ j, j < 30 → UploadStep.idOf (sc j) = none) →
        uploadPhaseMux sc = (Except.error "Failed to get asset ID after upload", 30, 60)) ∧
    (∀ k a, k < 30 → UploadStep.idOf (UploadStep.statusStep (s k)) = some a →
        (∀ j, j < k → UploadStep.idOf (UploadStep.statusStep (s j)) = none) →
        uploadPhaseMain (fun j => UploadStep.statusStep (s j)) =
          (Except.ok a, k + 1, 2 * k)) ∧
    ((∀ j, j < 30 → UploadStep.idOf (UploadStep.statusStep (s j)) = none) →
        uploadPhaseMain (fun j => UploadStep.statusStep (s j)) =
          (Except.error "Failed to get asset ID after upload", 30, 60)) := by
  refine ⟨fun k a hk ha hmin => uploadPhaseMux_found sc k a hk ha hmin,
          fun hnone => uploadPhaseMux_timeout sc hnone, ?_, ?_⟩
  · intro k a hk ha hmin
    rw [uploadPhaseMain_eq_mux s]
    exact uploadPhaseMux_found _ k a hk ha hmin
  · intro hnone
    rw [uploadPhaseMain_eq_mux s]
    exact uploadPhaseMux_timeout _ hnone

/-- A scripted upload-status sequence: nothing on attempt 1, an asset id
on every later attempt. -/
def c4Script : Nat → UploadStep := fun i =>
  if i = 0 then UploadStep.statusStep none else UploadStep.statusStep (some "assetA")

/-- Witness for C4 at a concrete script: the asset id appearing on the
second attempt is returned after exactly 2 attempts and 2 seconds of
sleeping. -/
theorem spec_C4_witness : uploadPhaseMux c4Script = (Except.ok "assetA", 2, 2) := by
  refine (spec_C4_upload_status_poll c4Script (fun _ => none)).1 1 "assetA"
    (by decide) rfl ?_
  intro j hj
  have hj0 : j = 0 := by omega
  rw [hj0]
  rfl

/-- C9: inside the two polling loops of upload_to_mux in
api/src/mux_upload.py, every exception raised while checking the upload
status or the asset status -- including the exception deliberately raised
when the asset status is errored -- is caught by the loop's own except
clause, counted as one attempt against the retry budget (one unit of
fuel consumed), and polling continues with the next scripted attempt
(conjuncts 1 and 2).  Consequently the operation never fails before the
30-attempt budget is exhausted: whenever either phase returns an error,
exactly 30 attempts were made (conjuncts 3 and 4; the hypothesis hpids
rules out the unrelated post-loop IndexError on an asset whose
playback-id list is empty). -/
theorem spec_C9_poll_exception_handling (ascript : Nat → PollStep)
    (uscript : Nat → UploadStep)
    (hpids : ∀ i d, ascript i = PollStep.asset d → d.playbackIds ≠ []) :
    (∀ fuel i slept last m, ascript i = PollStep.raiseStep m →
        assetLoopMux ascript (fuel + 1) i slept last =
          assetLoopMux ascript fuel (i + 1) (slept + 5) last) ∧
    (∀ fuel i slept m, uscript i = UploadStep.raiseStep m →
        uploadLoopMux uscript (fuel + 1) i slept =
          uploadLoopMux uscript fuel (i + 1) (slept + 2)) ∧
    (∀ m n t, assetPhaseMux ascript = (Except.error m, n, t) → n = 30) ∧
    (∀ m n t, uploadPhaseMux uscript = (Except.error m, n, t) → n = 30) := by
  refine ⟨?_, ?_, ?_, ?_⟩
  · intro fuel i slept last m h
    simp only [assetLoopMux, h]
  · intro fuel i slept m h
    simp only [uploadLoopMux, h]
  · intro m n t h
    unfold assetPhaseMux at h
    rcases hloop : assetLoopMux ascript 30 0 0 none with ⟨last, n', t'⟩
    rw [hloop] at h
    rcases assetLoopMux_exit ascript 30 0 0 none last n' t' hloop with hl | ⟨j, d', hd', hready, hlast⟩
    · cases last with
      | none => simp at h; omega
      | some d =>
        obtain ⟨st, errs, pids⟩ := d
        cases st with
        | ready =>
          cases pids with
          | nil => simp at h; omega
          | cons p ps => simp at h
        | errored => simp at h; omega
        | preparing => simp at h; omega
    · rw [hlast] at h
      obtain ⟨st, errs, pids⟩ := d'
      have hst : st = AssetStatus.ready := hready
      subst hst
      cases pids with
      | nil => exact absurd rfl (hpids j ⟨AssetStatus.ready, errs, []⟩ hd')
      | cons p ps => simp at h
  · intro m n t h
    unfold uploadPhaseMux at h
    rcases hloop : uploadLoopMux uscript 30 0 0 with ⟨r, n', t'⟩
    rw [hloop] at h
    cases r with
    | some aid => simp at h
    | none =>
      simp only [Prod.mk.injEq] at h
      have := uploadLoopMux_none_count uscript 30 0 0 n' t' hloop
      omega

/-- A scripted get_asset sequence whose first attempt raises and whose
later attempts report a ready asset with a playback id. -/
def c9AssetScript : Nat → PollStep := fun i =>
  if i = 0 then PollStep.raiseStep "connection reset"
  else PollStep.asset (AssetData.mk AssetStatus.ready "" ["playbackB"])

/-- A scripted get_direct_upload sequence whose first attempt raises and
whose later attempts report an asset id. -/
def c9UploadScript : Nat → UploadStep := fun i =>
  if i = 0 then UploadStep.raiseStep "connection reset"
  else UploadStep.statusStep (some "assetB")

/-- Witness for C9 at concrete scripts: the exception on the first
attempt of each loop consumes one unit of budget and polling continues
at the next attempt. -/
theorem spec_C9_witness :
    assetLoopMux c9AssetScript 30 0 0 none = assetLoopMux c9AssetScript 29 1 5 none ∧
    uploadLoopMux c9UploadScript 30 0 0 = uploadLoopMux c9UploadScript 29 1 2 := by
  have hpids : ∀ i d, c9AssetScript i = PollStep.asset d → d.playbackIds ≠ [] := by
    intro i d h
    by_cases hi : i = 0
    · rw [hi] at h
      exact absurd h (by simp [c9AssetScript])
    · simp only [c9AssetScript, if_neg hi, PollStep.asset.injEq] at h
      rw [← h]
      simp
  have H := spec_C9_poll_exception_handling c9AssetScript c9UploadScript hpids
  exact ⟨H.1 29 0 0 none "connection reset" rfl, H.2.1 29 0 0 "connection reset" rfl⟩

/-- The chunk threshold of upload_to_mux in api/src/mux_upload.py line
60: chunk_size = 5 * 1024 * 1024 bytes (5 MiB). -/
def CHUNK_SIZE : Nat := 5 * 1024 * 1024

/-- One chunked PUT request as issued by the loop at mux_upload.py lines
82-104: the running offset, the number of bytes read, and the
Content-Range fields (bytes first-last/total, computed in the source as
offset, end - 1 and file_size, with end = min(offset + len, file_size)). -/
structure ChunkPut where
  offset : Nat
  len : Nat
  first : Nat
  last : Nat
  total : Nat
deriving DecidableEq, Repr

/-- The chunked-upload loop of mux_upload.py lines 81-104 (while offset
less than file_size), recorded as the list of PUT requests it issues.
Each iteration reads min(CHUNK_SIZE, file_size - offset) bytes (the
behaviour of f.read(chunk_size) on a file of size file_size) and
advances offset by the number of bytes read; the break on an empty read
never fires while offset is below file_size. -/
def chunkPuts (fileSize : Nat) (offset : Nat) : List ChunkPut :=
  if h : offset < fileSize then
    { offset := offset,
      len := min CHUNK_SIZE (fileSize - offset),
      first := offset,
      last := min (offset + min CHUNK_SIZE (fileSize - offset)) fileSize - 1,
      total := fileSize } ::
      chunkPuts fileSize (offset + min CHUNK_SIZE (fileSize - offset))
  else []
termination_by fileSize - offset
decreasing_by
  have hc : 0 < CHUNK_SIZE := by norm_num [CHUNK_SIZE]
  have hpos : 0 < min CHUNK_SIZE (fileSize - offset) :=
    Nat.lt_min.mpr ⟨hc, by omega⟩
  have hle : min CHUNK_SIZE (fileSize - offset) ≤ fileSize - offset := Nat.min_le_right _ _
  omega

/-- The byte-upload phase of upload_to_mux (mux_upload.py lines 59-106):
one single-shot PUT carrying the whole file when file_size is at most
CHUNK_SIZE, otherwise the chunked PUT sequence. -/
inductive BytePhase
  | single (contentLength : Nat)
  | chunked (puts : List ChunkPut)
deriving DecidableEq, Repr

/-- The request plan of the byte-upload phase for a file of the given
size (the branch at mux_upload.py line 69). -/
def bytePhaseRequests (fileSize : Nat) : BytePhase :=
  if fileSize ≤ CHUNK_SIZE then BytePhase.single fileSize
  else BytePhase.chunked (chunkPuts fileSize 0)

lemma chunkPuts_props (fileSize : Nat) :
    ∀ n offset, fileSize - offset ≤ n → offset ≤ fileSize →
      ((chunkPuts fileSize offset).map ChunkPut.len).sum = fileSize - offset ∧
      (∀ q ∈ (chunkPuts fileSize offset).head?, q.offset = offset) ∧
      List.Chain' (fun a b => b.offset = a.offset + a.len ∧ b.first = a.last + 1)
        (chunkPuts fileSize offset) ∧
      (∀ p ∈ chunkPuts fileSize offset,
        0 < p.len ∧ p.first = p.offset ∧ p.last + 1 = p.offset + p.len ∧ p.total = fileSize) := by
  intro n
  induction n with
  | zero =>
    intro offset h1 h2
    have ho : ¬ offset < fileSize := by omega
    rw [chunkPuts, dif_neg ho]
    simp
    omega
  | succ n ih =>
    intro offset h1 h2
    by_cases ho : offset < fileSize
    · have hc : 0 < CHUNK_SIZE := by norm_num [CHUNK_SIZE]
      have hpos : 0 < min CHUNK_SIZE (fileSize - offset) := Nat.lt_min.mpr ⟨hc, by omega⟩
      have hle : min CHUNK_SIZE (fileSize - offset) ≤ fileSize - offset := Nat.min_le_right _ _
      rw [chunkPuts, dif_pos ho]
      have hrec := ih (offset + min CHUNK_SIZE (fileSize - offset)) (by omega) (by omega)
      have hmin2 : min (offset + min CHUNK_SIZE (fileSize - offset)) fileSize =
          offset + min CHUNK_SIZE (fileSize - offset) := Nat.min_eq_left (by omega)
      refine ⟨?_, ?_, ?_, ?_⟩
      · simp only [List.map_cons, List.sum_cons]
        rw [hrec.1]
        omega
      · intro q hq
        simp only [List.head?_cons, Option.mem_def, Option.some.injEq] at hq
        rw [← hq]
      · rw [List.chain'_cons']
        refine ⟨?_, hrec.2.2.1⟩
        intro b hb
        have hb1 := hrec.2.1 b hb
        have hb2 := hrec.2.2.2 b (List.mem_of_mem_head? hb)
        constructor
        · exact hb1
        · rw [hb2.2.1, hb1]
          dsimp only
          omega
      · intro p hp
        rcases List.mem_cons.mp hp with hp | hp
        · rw [hp]
          refine ⟨hpos, rfl, ?_, rfl⟩
          dsimp only
          omega
        · exact hrec.2.2.2 p hp
    · rw [chunkPuts, dif_neg ho]
      simp
      omega

/-- C2: the byte-upload phase of upload_to_mux sends a file of size at
most CHUNK_SIZE (5 MiB) as exactly one PUT carrying the whole file;
a larger file is sent as the chunk sequence produced by the loop
(continuing while offset is below file_size), whose lengths are positive
and sum to the file size and whose Content-Range byte ranges start at
the running offset, are contiguous (each range starts one byte past the
end of the previous one) and hence non-overlapping. -/
theorem spec_C2_chunking (fileSize : Nat) :
    (fileSize ≤ CHUNK_SIZE → bytePhaseRequests fileSize = BytePhase.single fileSize) ∧
    (CHUNK_SIZE < fileSize →
      bytePhaseRequests fileSize = BytePhase.chunked (chunkPuts fileSize 0) ∧
      ((chunkPuts fileSize 0).map ChunkPut.len).sum = fileSize ∧
      (∀ q ∈ (chunkPuts fileSize 0).head?, q.first = 0) ∧
      List.Chain' (fun a b => b.offset = a.offset + a.len ∧ b.first = a.last + 1)
        (chunkPuts fileSize 0) ∧
      (∀ p ∈ chunkPuts fileSize 0,
        0 < p.len ∧ p.first = p.offset ∧ p.last + 1 = p.offset + p.len ∧
        p.total = fileSize)) := by
  constructor
  · intro hle
    unfold bytePhaseRequests
    rw [if_pos hle]
  · intro hgt
    have hp := chunkPuts_props fileSize fileSize 0 (by omega) (by omega)
    refine ⟨?_, by simpa using hp.1, ?_, hp.2.2.1, hp.2.2.2⟩
    · unfold bytePhaseRequests
      rw [if_neg (by omega)]
    · intro q hq
      have h1 := hp.2.1 q hq
      have h2 := hp.2.2.2 q (List.mem_of_mem_head? hq)
      rw [h2.2.1, h1]

/-- Witness for C2 at concrete sizes: a 3-byte file goes out as a single
PUT of the whole file, and for a file one byte over the threshold the
chunk lengths sum to the file size. -/
theorem spec_C2_witness :
    bytePhaseRequests 3 = BytePhase.single 3 ∧
    ((chunkPuts (CHUNK_SIZE + 1) 0).map ChunkPut.len).sum = CHUNK_SIZE + 1 :=
  ⟨(spec_C2_chunking 3).1 (by decide),
   ((spec_C2_chunking (CHUNK_SIZE + 1)).2 (by decide)).2.1⟩

/-- requests raise_for_status, used by the single-shot PUT path at
mux_upload.py line 78 and by main.py line 179: the response is accepted
exactly when its status code lies outside 400-599 (4xx and 5xx raise
HTTPError; every other status returns normally). -/
def singleShotAccepts (status : Nat) : Bool :=
  !(decide (400 ≤ status) && decide (status < 600))

/-- The chunked-path status check at mux_upload.py lines 101-102: the
response is accepted exactly when its status code is 200, 201 or 308;
anything else raises and aborts the upload. -/
def chunkAccepts (status : Nat) : Bool :=
  status == 200 || status == 201 || status == 308

/-- The chunked upload loop with scripted response statuses: the PUT for
chunk number k receives status statuses k; the first rejected status
raises, aborting the remaining chunks.  Returns the outcome and the
number of PUT requests issued. -/
def sendChunks (statuses : Nat → Nat) : List ChunkPut → Nat → Except String Unit × Nat
  | [], k => (Except.ok (), k)
  | _ :: rest, k =>
    if chunkAccepts (statuses k) then sendChunks statuses rest (k + 1)
    else (Except.error ("Upload failed with status " ++ toString (statuses k)), k + 1)

lemma sendChunks_ok_iff (statuses : Nat → Nat) :
    ∀ ps k, (sendChunks statuses ps k).1 = Except.ok () ↔
      ∀ j, j < ps.length → chunkAccepts (statuses (k + j)) = true := by
  intro ps
  induction ps with
  | nil => intro k; simp [sendChunks]
  | cons p rest ih =>
    intro k
    by_cases hk : chunkAccepts (statuses k) = true
    · simp only [sendChunks, if_pos hk]
      rw [ih (k + 1)]
      constructor
      · intro hall j hj
        cases j with
        | zero => simpa using hk
        | succ j =>
          have e : k + (j + 1) = k + 1 + j := by omega
          rw [e]
          exact hall j (by simp at hj; omega)
      · intro hall j hj
        have e : k + 1 + j = k + (j + 1) := by omega
        rw [e]
        exact hall (j + 1) (by simp; omega)
    · simp only [sendChunks, if_neg hk]
      constructor
      · intro h
        exact absurd h (by simp)
      · intro hall
        exact absurd (by simpa using hall 0 (by simp)) hk

/-- C3 counterexample: the claim says every PUT response status outside
the set 200/201/308 is a hard failure on both upload paths.  But the
single-shot path checks with raise_for_status, which accepts status 204
even though 204 is outside that set (the chunked path does reject it). -/
theorem spec_C3_counterexample :
    singleShotAccepts 204 = true ∧ chunkAccepts 204 = false ∧
    204 ∉ ([200, 201, 308] : List Nat) := by decide

/-- C3 amended: on the chunked path every response status outside
200/201/308 is a hard failure that aborts the upload (the whole chunk
sequence succeeds exactly when every response is in that set), and only
those three statuses are accepted there; the single-shot path instead
uses raise_for_status, which rejects exactly the statuses in 400-599, so
a status outside the set but below 400 (such as 204) is accepted
there. -/
theorem spec_C3_amended (status : Nat) (statuses : Nat → Nat) (ps : List ChunkPut) :
    (status ≠ 200 → status ≠ 201 → status ≠ 308 → chunkAccepts status = false) ∧
    (400 ≤ status → status < 600 → singleShotAccepts status = false) ∧
    (status < 400 → singleShotAccepts status = true) ∧
    (600 ≤ status → singleShotAccepts status = true) ∧
    ((sendChunks statuses ps 0).1 = Except.ok () ↔
      ∀ j, j < ps.length → chunkAccepts (statuses j) = true) := by
  refine ⟨?_, ?_, ?_, ?_, ?_⟩
  · intro h1 h2 h3
    simp [chunkAccepts, h1, h2, h3]
  · intro h1 h2
    unfold singleShotAccepts
    rw [decide_eq_true h1, decide_eq_true h2]
    rfl
  · intro h
    unfold singleShotAccepts
    rw [decide_eq_false (by omega : ¬ 400 ≤ status)]
    rfl
  · intro h
    unfold singleShotAccepts
    rw [decide_eq_false (by omega : ¬ status < 600)]
    simp
  · simpa using sendChunks_ok_iff statuses ps 0

/-- Witness for the amended C3 at concrete statuses: 404 is rejected on
both paths, 204 is accepted on the single-shot path, and a chunk
sequence whose responses are all 200 succeeds. -/
theorem spec_C3_witness :
    chunkAccepts 404 = false ∧ singleShotAccepts 404 = false ∧
    singleShotAccepts 204 = true ∧
    (sendChunks (fun _ => 200) (chunkPuts (CHUNK_SIZE + 1) 0) 0).1 = Except.ok () := by
  have H404 := spec_C3_amended 404 (fun _ => 200) (chunkPuts (CHUNK_SIZE + 1) 0)
  have H204 := spec_C3_amended 204 (fun _ => 200) ([] : List ChunkPut)
  exact ⟨H404.1 (by decide) (by decide) (by decide), H404.2.1 (by decide) (by decide),
         H204.2.2.1 (by decide),
         H404.2.2.2.2.mpr (fun j hj => rfl)⟩

/-- A Python value of the shapes relevant to the generation-result
normalization: a string (a URL-like reference) or a list of values. -/
inductive PyValue
  | str (s : String)
  | list (xs : List PyValue)

/-- The single-quote character used by the Python repr of a string. -/
def pyQuote : Char := Char.ofNat 39

mutual
/-- Python repr of these values: a string renders wrapped in single
quotes, a list renders bracketed with comma-separated element reprs
(this is what str produces on a list). -/
def pyRepr : PyValue → String
  | PyValue.str s => String.singleton pyQuote ++ s ++ String.singleton pyQuote
  | PyValue.list xs => "[" ++ pyReprList xs ++ "]"

/-- Comma-separated reprs of the elements of a list. -/
def pyReprList : List PyValue → String
  | [] => ""
  | [x] => pyRepr x
  | x :: y :: rest => pyRepr x ++ ", " ++ pyReprList (y :: rest)
end

/-- Python str: the identity on a string, repr on a list. -/
def pyStr : PyValue → String
  | PyValue.str s => s
  | PyValue.list xs => pyRepr (PyValue.list xs)

/-- The normalization in generate_music (api/src/main.py lines 61-64 and
api/src/music_generation.py lines 64-67): if the result is a list with
at least one element, str of its first element; otherwise str of the
whole value. -/
def normalizeMusicOutput : PyValue → String
  | PyValue.list (x :: _) => pyStr x
  | v => pyStr v

/-- The normalization in generate_visualization
(api/src/viz_generation.py lines 64-65 and api/src/main.py line 91):
output_url = str(output), unconditionally. -/
def normalizeVizOutput (v : PyValue) : String := pyStr v

/-- C5 counterexample: the claim quantifies over every generation result
value and every normalizer it cites, including the one in
generate_visualization; but on the non-empty list containing the single
string u, generate_visualization stringifies the whole list rather than
its first element, so the normalized output differs from the
stringification of the first element. -/
theorem spec_C5_counterexample :
    normalizeVizOutput (PyValue.list [PyValue.str "u"]) ≠ pyStr (PyValue.str "u") := by
  decide

/-- C5 corrected: the music normalizers (api/src/main.py generate_music
and api/src/music_generation.py generate_music) follow the claimed rule
for every result value -- a non-empty list normalizes to the
stringification of its first element, an empty list or non-list to the
stringification of the whole value -- while generate_visualization
stringifies the whole value unconditionally, which agrees with the
claimed rule only for results that are not non-empty lists. -/
theorem spec_C5_normalization_amended (v : PyValue) :
    (∀ x xs, v = PyValue.list (x :: xs) → normalizeMusicOutput v = pyStr x) ∧
    ((∀ x xs, v ≠ PyValue.list (x :: xs)) → normalizeMusicOutput v = pyStr v) ∧
    ((∀ x xs, v ≠ PyValue.list (x :: xs)) → normalizeVizOutput v = pyStr v) := by
  refine ⟨?_, ?_, fun _ => rfl⟩
  · intro x xs hv
    subst hv
    rfl
  · intro hne
    cases v with
    | str s => rfl
    | list xs =>
      cases xs with
      | nil => rfl
      | cons x rest => exact absurd rfl (hne x rest)

/-- Witness for the amended C5 at concrete values: a two-element list
normalizes to its first element, and a plain string normalizes to
itself. -/
theorem spec_C5_witness :
    normalizeMusicOutput (PyValue.list [PyValue.str "u", PyValue.str "w"]) = "u" ∧
    normalizeMusicOutput (PyValue.str "v") = "v" := by
  constructor
  · exact (spec_C5_normalization_amended
      (PyValue.list [PyValue.str "u", PyValue.str "w"])).1
      (PyValue.str "u") [PyValue.str "w"] rfl
  · exact (spec_C5_normalization_amended (PyValue.str "v")).2.1
      (fun x xs h => PyValue.noConfusion h)

/-- Observable result of a manifest-based looping operation: the
reference lines written to the concat manifest (modeled as the list of
referenced input paths, one per loop iteration of the write loop), the
outcome, and the manifest file content still on disk when the operation
completes (none meaning the file is absent). -/
structure LoopRunResult where
  written : List String
  outcome : Except String String
  manifestAfter : Option (List String)

/-- api/src/merge_av.py loop_video (lines 98-138): write loops references
to the absolute input path into concat.txt, run the ffmpeg concat
(scripted by concatOk), then os.remove the manifest, then probe the
output (scripted by probeOk).  When ffmpeg.run raises, the except
clauses log and re-raise before os.remove runs, so the manifest file
remains; when the later probe raises, the manifest was already
removed. -/
def loop_video (inputPath outputPath : String) (loops : Nat)
    (concatOk probeOk : Bool) : LoopRunResult :=
  let manifest := List.replicate loops inputPath
  if concatOk then
    if probeOk then
      { written := manifest, outcome := Except.ok outputPath, manifestAfter := none }
    else
      { written := manifest, outcome := Except.error "ffmpeg.Error: probe failed",
        manifestAfter := none }
  else
    { written := manifest, outcome := Except.error "ffmpeg.Error: concat failed",
      manifestAfter := some manifest }

/-- api/src/main.py merge_and_loop (lines 118-149): run the ffmpeg merge
(scripted by mergeOk); on success write loops references to the merged
path into concat.txt, run the concat (scripted by concatOk), then remove
the manifest.  A merge failure raises before the manifest is created; a
concat failure raises before os.remove runs, leaving the manifest. -/
def merge_and_loop (mergedPath outputPath : String) (loops : Nat)
    (mergeOk concatOk : Bool) : LoopRunResult :=
  if mergeOk then
    let manifest := List.replicate loops mergedPath
    if concatOk then
      { written := manifest, outcome := Except.ok outputPath, manifestAfter := none }
    else
      { written := manifest, outcome := Except.error "ffmpeg.Error: concat failed",
        manifestAfter := some manifest }
  else
    { written := [], outcome := Except.error "ffmpeg.Error: merge failed",
      manifestAfter := none }

/-- C6 counterexample: the claim says the manifest file does not exist
after the operation completes whether the concatenation succeeds or
fails; but when the ffmpeg concat raises, loop_video re-raises before
os.remove runs, and the manifest (with its 5 references) is still on
disk. -/
theorem spec_C6_counterexample :
    (loop_video "input.mp4" "out.mp4" 5 false true).manifestAfter =
      some (List.replicate 5 "input.mp4") := rfl

/-- C6 corrected: for every input path and loop count N, the looping
operation writes a concat manifest containing exactly N references to
the same input path, and after a successful concatenation (or a failure
of the later output probe, which happens after cleanup) the manifest
file no longer exists; but when the concatenation itself fails, the
exception propagates before the cleanup and the manifest file remains on
disk.  The same holds for merge_and_loop in api/src/main.py, whose
manifest references the merged temporary path (and is never created when
the preceding merge fails). -/
theorem spec_C6_manifest_amended (inputPath outputPath mergedPath : String)
    (loops : Nat) (concatOk probeOk mergeOk : Bool) :
    ((loop_video inputPath outputPath loops concatOk probeOk).written =
      List.replicate loops inputPath) ∧
    (concatOk = true →
      (loop_video inputPath outputPath loops concatOk probeOk).manifestAfter = none) ∧
    (concatOk = false →
      (loop_video inputPath outputPath loops concatOk probeOk).manifestAfter =
        some (List.replicate loops inputPath)) ∧
    (mergeOk = true →
      (merge_and_loop mergedPath outputPath loops mergeOk concatOk).written =
        List.replicate loops mergedPath) ∧
    (mergeOk = true → concatOk = true →
      (merge_and_loop mergedPath outputPath loops mergeOk concatOk).manifestAfter = none) ∧
    (mergeOk = true → concatOk = false →
      (merge_and_loop mergedPath outputPath loops mergeOk concatOk).manifestAfter =
        some (List.replicate loops mergedPath)) := by
  refine ⟨?_, ?_, ?_, ?_, ?_, ?_⟩
  · cases concatOk <;> cases probeOk <;> rfl
  · intro hc
    subst hc
    cases probeOk <;> rfl
  · intro hc
    subst hc
    cases probeOk <;> rfl
  · intro hm
    subst hm
    cases concatOk <;> rfl
  · intro hm hc
    subst hm
    subst hc
    rfl
  · intro hm hc
    subst hm
    subst hc
    rfl

/-- Witness for the amended C6 at a concrete run: with 5 loops and a
successful concat, the written manifest has exactly 5 references and the
manifest file is gone afterwards. -/
theorem spec_C6_witness :
    (loop_video "merged.mp4" "out.mp4" 5 true true).written =
      List.replicate 5 "merged.mp4" ∧
    (loop_video "merged.mp4" "out.mp4" 5 true true).manifestAfter = none := by
  have H := spec_C6_manifest_amended "merged.mp4" "out.mp4" "merged.mp4" 5 true true true
  exact ⟨H.1, H.2.1 rfl⟩

/-- Python truthiness of os.getenv as used in the credential checks: an
unset variable (None) and the empty string are both falsy. -/
def envTruthy (env : String → Option String) (v : String) : Bool :=
  match env v with
  | some s => !(s == "")
  | none => false

/-- missing_vars as computed by the entry points: the required variables
whose value is falsy, in order. -/
def missingVars (env : String → Option String) (vars : List String) : List String :=
  vars.filter (fun v => !envTruthy env v)

/-- One pipeline stage of an entry point: its name, whether attempting
it issues a network call, and its scripted outcome. -/
structure PipelineStage where
  name : String
  isNet : Bool
  outcome : Except String Unit

/-- Sequential execution of a try block of stages: stages run in order
until the first failure, whose exception aborts the rest.  Returns the
names of the attempted stages and the first error, if any. -/
def runStages : List PipelineStage → List String × Option String
  | [] => ([], none)
  | s :: rest =>
    match s.outcome with
    | Except.ok _ => (s.name :: (runStages rest).1, (runStages rest).2)
    | Except.error m => ([s.name], some m)

/-- Scripted outcomes of the pipeline stages of an end-to-end entry
point: two generation calls, two downloads, the local merge step, and
the platform upload (which includes its polling).  Error strings stand
for the formatted exception message of the failing stage. -/
structure StageOutcomes where
  music : Except String Unit
  viz : Except String Unit
  dlAudio : Except String Unit
  dlVideo : Except String Unit
  mergeLoop : Except String Unit
  upload : Except String Unit

/-- The stage sequence of generate_peaceful_content (api/src/main.py
lines 227-253).  The two generation calls (and the two downloads) are
dispatched together via asyncio.gather and joined before the next step,
a failure of either aborting the pipeline; they are modeled in program
order. -/
def peacefulStages (o : StageOutcomes) : List PipelineStage :=
  [⟨"generate_music", true, o.music⟩,
   ⟨"generate_visualization", true, o.viz⟩,
   ⟨"download_audio", true, o.dlAudio⟩,
   ⟨"download_video", true, o.dlVideo⟩,
   ⟨"merge_and_loop", false, o.mergeLoop⟩,
   ⟨"upload_to_mux", true, o.upload⟩]

/-- The response model of the generate-peaceful-content endpoint
(GenerationResponse in api/src/main.py lines 31-38); elapsed seconds are
carried as a natural number. -/
structure GenerationResponse where
  success : Bool
  mux_playback_id : Option String
  mux_playback_url : Option String
  status : String
  execution_time_seconds : Nat
  error : Option String
deriving DecidableEq, Repr

/-- The generate-peaceful-content endpoint (api/src/main.py lines
221-275).  It performs no credential check: no environment variable is
read before the network-calling stages, which is why the env parameter
is unused (mirroring the absence of any check in the source).  The try
block runs the stages in order; the except clause converts any exception
into the structured failure response carrying the message and the
elapsed time.  playbackId scripts the id of the successful Mux response.
Returns the response and the names of the attempted stages. -/
def generatePeacefulContent (env : String → Option String) (o : StageOutcomes)
    (playbackId : String) (elapsed : Nat) : GenerationResponse × List String :=
  match runStages (peacefulStages o) with
  | (attempted, none) =>
    ({ success := true, mux_playback_id := some playbackId,
       mux_playback_url := some ("https://stream.mux.com/" ++ playbackId ++ ".m3u8"),
       status := "completed", execution_time_seconds := elapsed, error := none },
     attempted)
  | (attempted, some m) =>
    ({ success := false, mux_playback_id := none, mux_playback_url := none,
       status := "failed", execution_time_seconds := elapsed, error := some m },
     attempted)

/-- Scripted outcomes of the merge-av endpoint stages
(api/src/merge_av.py lines 146-172). -/
structure MergeAvOutcomes where
  dlAudio : Except String Unit
  dlVideo : Except String Unit
  mergeStep : Except String Unit
  loopStep : Except String Unit

/-- The stage sequence of the merge-av endpoint. -/
def mergeAvStages (o : MergeAvOutcomes) : List PipelineStage :=
  [⟨"download_audio", true, o.dlAudio⟩,
   ⟨"download_video", true, o.dlVideo⟩,
   ⟨"merge_audio_video", false, o.mergeStep⟩,
   ⟨"loop_video", false, o.loopStep⟩]

/-- The response model of the merge-av endpoint (MergeResponse in
api/src/merge_av.py lines 25-31). -/
structure MergeResponse where
  success : Bool
  output_path : Option String
  status : String
  execution_time_seconds : Nat
  error : Option String
deriving DecidableEq, Repr

/-- The merge-av endpoint (api/src/merge_av.py lines 140-195): the
stages run inside the try block; the except clause converts any
exception into the failure body with the message and the elapsed
time. -/
def mergeAvEndpoint (o : MergeAvOutcomes) (outputPath : String) (elapsed : Nat) :
    MergeResponse × List String :=
  match runStages (mergeAvStages o) with
  | (attempted, none) =>
    ({ success := true, output_path := some outputPath, status := "completed",
       execution_time_seconds := elapsed, error := none }, attempted)
  | (attempted, some m) =>
    ({ success := false, output_path := none, status := "failed",
       execution_time_seconds := elapsed, error := some m }, attempted)

/-- The credential variables required by the serverless function
(functions/peaceful-video-generation/src/main.py check_env_vars, lines
16-25). -/
def appwriteRequiredVars : List String :=
  ["MUX_TOKEN_ID", "MUX_TOKEN_SECRET", "REPLICATE_API_KEY"]

/-- The json body returned by the serverless entry point
(functions/peaceful-video-generation/src/main.py lines 230-243). -/
structure AppwriteResponse where
  success : Bool
  error : Option String
  processingTime : Nat
deriving DecidableEq, Repr

/-- The stage sequence of the serverless main (lines 199-224 of
functions/peaceful-video-generation/src/main.py). -/
def appwriteStages (o : StageOutcomes) : List PipelineStage :=
  [⟨"generate_music", true, o.music⟩,
   ⟨"generate_video", true, o.viz⟩,
   ⟨"download_audio", true, o.dlAudio⟩,
   ⟨"download_video", true, o.dlVideo⟩,
   ⟨"merge_audio_video", false, o.mergeLoop⟩,
   ⟨"upload_to_mux", true, o.upload⟩]

/-- The serverless entry point (functions/peaceful-video-generation/src/
main.py lines 183-243): check_env_vars raises EnvironmentError on any
missing credential before any other step; the except clause converts
every exception into the json failure body with the error string and the
processing time.  Returns the response and the attempted stage names
(an eager env-check failure attempts no stage and issues no network
call). -/
def appwriteMain (env : String → Option String) (o : StageOutcomes) (elapsed : Nat) :
    AppwriteResponse × List String :=
  if (missingVars env appwriteRequiredVars).isEmpty then
    match runStages (appwriteStages o) with
    | (attempted, none) =>
      ({ success := true, error := none, processingTime := elapsed }, attempted)
    | (attempted, some m) =>
      ({ success := false, error := some m, processingTime := elapsed }, attempted)
  else
    ({ success := false,
       error := some ("Missing required environment variables: " ++
         String.intercalate ", " (missingVars env appwriteRequiredVars)),
       processingTime := elapsed }, [])

/-- The response model shared by the generate-music and
generate-visualization endpoints (api/src/music_generation.py lines
18-25, api/src/viz_generation.py lines 18-25). -/
structure ReplicateGenResponse where
  success : Bool
  output_url : Option String
  status : String
  execution_time_seconds : Nat
  error : Option String
deriving DecidableEq, Repr

/-- The generate-music endpoint (api/src/music_generation.py lines
27-90): the Replicate token is checked before the generation call; a
missing (or empty) token raises HTTPException, which the generic except
clause converts into the failure body, with no network call made.
genOutcome scripts the replicate.run call, its ok value being the
normalized output url.  Returns the response and the names of the
network calls issued. -/
def generateMusicEndpoint (env : String → Option String)
    (genOutcome : Except String String) (elapsed : Nat) :
    ReplicateGenResponse × List String :=
  if !envTruthy env "REPLICATE_API_TOKEN" then
    ({ success := false, output_url := none, status := "failed",
       execution_time_seconds := elapsed,
       error := some "HTTPException: Missing REPLICATE_API_TOKEN environment variable" },
     [])
  else
    match genOutcome with
    | Except.ok url =>
      ({ success := true, output_url := some url, status := "completed",
         execution_time_seconds := elapsed, error := none }, ["replicate.run"])
    | Except.error m =>
      ({ success := false, output_url := none, status := "failed",
         execution_time_seconds := elapsed, error := some m }, ["replicate.run"])

/-- The generate-visualization endpoint (api/src/viz_generation.py lines
27-87): identical structure to the generate-music endpoint, with the
same eager Replicate-token check before the single network call. -/
def generateVizEndpoint (env : String → Option String)
    (genOutcome : Except String String) (elapsed : Nat) :
    ReplicateGenResponse × List String :=
  if !envTruthy env "REPLICATE_API_TOKEN" then
    ({ success := false, output_url := none, status := "failed",
       execution_time_seconds := elapsed,
       error := some "HTTPException: Missing REPLICATE_API_TOKEN environment variable" },
     [])
  else
    match genOutcome with
    | Except.ok url =>
      ({ success := true, output_url := some url, status := "completed",
         execution_time_seconds := elapsed, error := none }, ["replicate.run"])
    | Except.error m =>
      ({ success := false, output_url := none, status := "failed",
         execution_time_seconds := elapsed, error := some m }, ["replicate.run"])

/-- The response model of the upload-to-mux endpoint (MuxUploadResponse
in api/src/mux_upload.py lines 19-27). -/
structure MuxUploadResponse where
  success : Bool
  asset_id : Option String
  playback_id : Option String
  playback_url : Option String
  status : String
  execution_time_seconds : Nat
  error : Option String
deriving DecidableEq, Repr

/-- The fields of a successful upload_to_mux result consumed by the
endpoint (mux_upload.py lines 167-172). -/
structure MuxData where
  asset_id : String
  playback_id : String
  playback_url : String
deriving DecidableEq, Repr

/-- Observable run of the upload-to-mux endpoint: the response body (the
endpoint always produces one), the network-call names issued, whether
the Mux upload stage (the inner try block) was reached, and whether the
temporary saved file still exists afterwards. -/
structure UploadVideoRun where
  response : MuxUploadResponse
  events : List String
  uploadReached : Bool
  tempExistsAfter : Bool

/-- The upload-to-mux endpoint upload_video (api/src/mux_upload.py lines
183-238).  The credential check runs first and raises HTTPException
before any network call; then the request body is saved to a temporary
file (saveOk scripts the read and write; if that fails the file created
by NamedTemporaryFile is never deleted, but no network call was made);
then the inner try block calls upload_to_mux (scripted by uploadOutcome,
error strings standing for the formatted exception message), with a
finally clause that deletes the temporary file whether upload_to_mux
returned or raised.  The outer except clause catches every exception --
including the HTTPException -- and converts it into the failure body
with success false and status failed, so the endpoint always returns a
response body. -/
def upload_video (env : String → Option String) (saveOk : Bool)
    (uploadOutcome : Except String MuxData) (elapsed : Nat) : UploadVideoRun :=
  if (missingVars env ["MUX_TOKEN_ID", "MUX_TOKEN_SECRET"]).isEmpty then
    if saveOk then
      match uploadOutcome with
      | Except.ok d =>
        { response :=
            { success := true, asset_id := some d.asset_id,
              playback_id := some d.playback_id, playback_url := some d.playback_url,
              status := "completed", execution_time_seconds := elapsed, error := none },
          events := ["mux_upload"], uploadReached := true, tempExistsAfter := false }
      | Except.error m =>
        { response :=
            { success := false, asset_id := none, playback_id := none,
              playback_url := none, status := "failed",
              execution_time_seconds := elapsed, error := some m },
          events := ["mux_upload"], uploadReached := true, tempExistsAfter := false }
    else
      { response :=
          { success := false, asset_id := none, playback_id := none,
            playback_url := none, status := "failed",
            execution_time_seconds := elapsed,
            error := some "Exception: file read failed" },
        events := [], uploadReached := false, tempExistsAfter := true }
  else
    { response :=
        { success := false, asset_id := none, playback_id := none,
          playback_url := none, status := "failed", execution_time_seconds := elapsed,
          error := some ("HTTPException: Missing required environment variables: " ++
            String.intercalate ", "
              (missingVars env ["MUX_TOKEN_ID", "MUX_TOKEN_SECRET"])) },
      events := [], uploadReached := false, tempExistsAfter := false }

lemma runStages_all_ok :
    ∀ l : List PipelineStage, (∀ s ∈ l, ∃ u, s.outcome = Except.ok u) →
      runStages l = (l.map PipelineStage.name, none) := by
  intro l
  induction l with
  | nil => intro _; rfl
  | cons s rest ih =>
    intro hok
    obtain ⟨u, hu⟩ := hok s (List.mem_cons_self s rest)
    simp only [runStages, hu, ih (fun x hx => hok x (List.mem_cons_of_mem s hx)),
      List.map_cons]

lemma runStages_first_error :
    ∀ l1 : List PipelineStage, ∀ s l2 m, (∀ x ∈ l1, ∃ u, x.outcome = Except.ok u) →
      s.outcome = Except.error m →
      runStages (l1 ++ s :: l2) = (l1.map PipelineStage.name ++ [s.name], some m) := by
  intro l1
  induction l1 with
  | nil =>
    intro s l2 m _ hs
    simp only [List.nil_append, runStages, hs, List.map_nil]
  | cons x rest ih =>
    intro s l2 m hok hs
    obtain ⟨u, hu⟩ := hok x (List.mem_cons_self x rest)
    have hr : runStages (rest.append (s :: l2)) =
        (List.map PipelineStage.name rest ++ [s.name], some m) :=
      ih s l2 m (fun y hy => hok y (List.mem_cons_of_mem x hy)) hs
    simp only [List.cons_append, runStages, hu]
    rw [hr]
    simp

lemma generatePeacefulContent_error (env : String → Option String) (o : StageOutcomes)
    (playbackId : String) (elapsed : Nat) (attempted : List String) (m : String)
    (h : runStages (peacefulStages o) = (attempted, some m)) :
    generatePeacefulContent env o playbackId elapsed =
      ({ success := false, mux_playback_id := none, mux_playback_url := none,
         status := "failed", execution_time_seconds := elapsed, error := some m },
       attempted) := by
  unfold generatePeacefulContent
  rw [h]

lemma mergeAvEndpoint_error (o : MergeAvOutcomes) (outputPath : String) (elapsed : Nat)
    (attempted : List String) (m : String)
    (h : runStages (mergeAvStages o) = (attempted, some m)) :
    mergeAvEndpoint o outputPath elapsed =
      ({ success := false, output_path := none, status := "failed",
         execution_time_seconds := elapsed, error := some m }, attempted) := by
  unfold mergeAvEndpoint
  rw [h]

lemma appwriteMain_error (env : String → Option String) (o : StageOutcomes)
    (elapsed : Nat) (attempted : List String) (m : String)
    (henv : (missingVars env appwriteRequiredVars).isEmpty = true)
    (h : runStages (appwriteStages o) = (attempted, some m)) :
    appwriteMain env o elapsed =
      ({ success := false, error := some m, processingTime := elapsed }, attempted) := by
  unfold appwriteMain
  rw [henv, if_pos rfl, h]

/-- C8: in each of the three boundary handlers (generate-peaceful-content
in api/src/main.py, merge-av in api/src/merge_av.py, and the serverless
main), a failure of any pipeline stage aborts the remaining stages --
exactly the stages before the failing one plus the failing one itself
are attempted -- and the entry point returns a structured failure
response carrying the failure message of the first failing stage and the
elapsed time; when every stage succeeds the response is the success body
with no error, so no failure is suppressed or silently defaulted.
(In the serverless entry point an eager credential failure is likewise
converted into the failure body with the config message and the elapsed
time, before any stage runs.) -/
theorem spec_C8_failure_propagation (env : String → Option String)
    (po ao : StageOutcomes) (mo : MergeAvOutcomes)
    (playbackId outputPath : String) (elapsed : Nat) :
    (∀ l1 s l2 m, peacefulStages po = l1 ++ s :: l2 →
      (∀ x ∈ l1, ∃ u, x.outcome = Except.ok u) → s.outcome = Except.error m →
      (generatePeacefulContent env po playbackId elapsed).1.success = false ∧
      (generatePeacefulContent env po playbackId elapsed).1.status = "failed" ∧
      (generatePeacefulContent env po playbackId elapsed).1.error = some m ∧
      (generatePeacefulContent env po playbackId elapsed).1.execution_time_seconds =
        elapsed ∧
      (generatePeacefulContent env po playbackId elapsed).2 =
        l1.map PipelineStage.name ++ [s.name]) ∧
    ((∀ x ∈ peacefulStages po, ∃ u, x.outcome = Except.ok u) →
      (generatePeacefulContent env po playbackId elapsed).1.success = true ∧
      (generatePeacefulContent env po playbackId elapsed).1.error = none) ∧
    (∀ l1 s l2 m, mergeAvStages mo = l1 ++ s :: l2 →
      (∀ x ∈ l1, ∃ u, x.outcome = Except.ok u) → s.outcome = Except.error m →
      (mergeAvEndpoint mo outputPath elapsed).1.success = false ∧
      (mergeAvEndpoint mo outputPath elapsed).1.status = "failed" ∧
      (mergeAvEndpoint mo outputPath elapsed).1.error = some m ∧
      (mergeAvEndpoint mo outputPath elapsed).1.execution_time_seconds = elapsed ∧
      (mergeAvEndpoint mo outputPath elapsed).2 =
        l1.map PipelineStage.name ++ [s.name]) ∧
    (∀ l1 s l2 m, (missingVars env appwriteRequiredVars).isEmpty = true →
      appwriteStages ao = l1 ++ s :: l2 →
      (∀ x ∈ l1, ∃ u, x.outcome = Except.ok u) → s.outcome = Except.error m →
      (appwriteMain env ao elapsed).1.success = false ∧
      (appwriteMain env ao elapsed).1.error = some m ∧
      (appwriteMain env ao elapsed).1.processingTime = elapsed ∧
      (appwriteMain env ao elapsed).2 = l1.map PipelineStage.name ++ [s.name]) := by
  refine ⟨?_, ?_, ?_, ?_⟩
  · intro l1 s l2 m hdec hok hs
    have hrun : runStages (peacefulStages po) =
        (l1.map PipelineStage.name ++ [s.name], some m) := by
      rw [hdec]
      exact runStages_first_error l1 s l2 m hok hs
    rw [generatePeacefulContent_error env po playbackId elapsed _ m hrun]
    exact ⟨rfl, rfl, rfl, rfl, rfl⟩
  · intro hok
    have hrun := runStages_all_ok (peacefulStages po) hok
    unfold generatePeacefulContent
    rw [hrun]
    exact ⟨rfl, rfl⟩
  · intro l1 s l2 m hdec hok hs
    have hrun : runStages (mergeAvStages mo) =
        (l1.map PipelineStage.name ++ [s.name], some m) := by
      rw [hdec]
      exact runStages_first_error l1 s l2 m hok hs
    rw [mergeAvEndpoint_error mo outputPath elapsed _ m hrun]
    exact ⟨rfl, rfl, rfl, rfl, rfl⟩
  · intro l1 s l2 m henv hdec hok hs
    have hrun : runStages (appwriteStages ao) =
        (l1.map PipelineStage.name ++ [s.name], some m) := by
      rw [hdec]
      exact runStages_first_error l1 s l2 m hok hs
    rw [appwriteMain_error env ao elapsed _ m henv hrun]
    exact ⟨rfl, rfl, rfl, rfl⟩

/-- Scripted stage outcomes in which the merge step fails and everything
before it succeeds. -/
def mergeFailOutcomes : StageOutcomes :=
  { music := Except.ok (), viz := Except.ok (), dlAudio := Except.ok (),
    dlVideo := Except.ok (), mergeLoop := Except.error "Error: ffmpeg error",
    upload := Except.ok () }

/-- Witness for C8 at a concrete run: when the merge step of
generate-peaceful-content fails, the endpoint returns the structured
failure body with that message and the elapsed time, and the upload
stage is never attempted. -/
theorem spec_C8_witness :
    (generatePeacefulContent (fun _ => none) mergeFailOutcomes "p" 7).1.success = false ∧
    (generatePeacefulContent (fun _ => none) mergeFailOutcomes "p" 7).1.error =
      some "Error: ffmpeg error" ∧
    (generatePeacefulContent (fun _ => none) mergeFailOutcomes "p" 7).1.execution_time_seconds = 7 ∧
    (generatePeacefulContent (fun _ => none) mergeFailOutcomes "p" 7).2 =
      ["generate_music", "generate_visualization", "download_audio", "download_video",
       "merge_and_loop"] := by
  have H := (spec_C8_failure_propagation (fun _ => none) mergeFailOutcomes
    mergeFailOutcomes ⟨Except.ok (), Except.ok (), Except.ok (), Except.ok ()⟩
    "p" "out.mp4" 7).1
    [⟨"generate_music", true, Except.ok ()⟩,
     ⟨"generate_visualization", true, Except.ok ()⟩,
     ⟨"download_audio", true, Except.ok ()⟩,
     ⟨"download_video", true, Except.ok ()⟩]
    ⟨"merge_and_loop", false, Except.error "Error: ffmpeg error"⟩
    [⟨"upload_to_mux", true, Except.ok ()⟩] "Error: ffmpeg error"
    rfl (by intro x hx; fin_cases hx <;> exact ⟨(), rfl⟩) rfl
  exact ⟨H.1, H.2.2.1, H.2.2.2.1, H.2.2.2.2⟩

/-- An environment holding only the Replicate token: both Mux
credentials are missing. -/
def c7Env : String → Option String := fun v =>
  if v = "REPLICATE_API_TOKEN" then some "r8_token" else none

/-- Stage outcomes in which everything up to the upload succeeds and the
upload fails upstream for lack of credentials. -/
def c7Outcomes : StageOutcomes :=
  { music := Except.ok (), viz := Except.ok (), dlAudio := Except.ok (),
    dlVideo := Except.ok (), mergeLoop := Except.ok (),
    upload := Except.error "ApiException: 401 Unauthorized" }

/-- C7 counterexample: the claim says every entry point fails fast with a
configuration-error response before any network call when a required
credential is missing.  The generate-peaceful-content endpoint
(api/src/main.py lines 221-246) contains no credential check: with the
Mux credentials missing it still attempts every generation and download
stage -- all network calls -- and the eventual failure is the upstream
exception from the upload stage, produced only after those calls. -/
theorem spec_C7_counterexample :
    envTruthy c7Env "MUX_TOKEN_ID" = false ∧
    (generatePeacefulContent c7Env c7Outcomes "p" 9).2 =
      ["generate_music", "generate_visualization", "download_audio",
       "download_video", "merge_and_loop", "upload_to_mux"] ∧
    (generatePeacefulContent c7Env c7Outcomes "p" 9).1.error =
      some "ApiException: 401 Unauthorized" :=
  ⟨rfl, rfl, rfl⟩

lemma generatePeacefulContent_attempted (env : String → Option String)
    (o : StageOutcomes) (playbackId : String) (elapsed : Nat) :
    (generatePeacefulContent env o playbackId elapsed).2 =
      (runStages (peacefulStages o)).1 := by
  unfold generatePeacefulContent
  rcases h : runStages (peacefulStages o) with ⟨attempted, err⟩
  cases err <;> simp

lemma runStages_head (s : PipelineStage) (rest : List PipelineStage) :
    (runStages (s :: rest)).1.head? = some s.name := by
  rcases hs : s.outcome with u | m <;> simp [runStages, hs]

/-- C7 corrected: every entry point except generate_peaceful_content
checks its required credentials eagerly.  When the Replicate token is
missing (or empty, per Python truthiness), generate-music and
generate-visualization return the configuration-error body and issue no
network call; when a Mux credential is missing, upload-to-mux returns
the failure body without any network call and without reaching the
upload stage; when any of its three credentials is missing, the
serverless main fails before attempting any stage.  But
generate_peaceful_content in api/src/main.py performs no credential
check at all: whatever the environment, its first attempted stage is the
generate_music network call. -/
theorem spec_C7_env_check_amended (env : String → Option String)
    (genOutcome : Except String String) (saveOk : Bool)
    (uploadOutcome : Except String MuxData) (o : StageOutcomes)
    (playbackId : String) (elapsed : Nat) :
    (envTruthy env "REPLICATE_API_TOKEN" = false →
      (generateMusicEndpoint env genOutcome elapsed).2 = [] ∧
      (generateMusicEndpoint env genOutcome elapsed).1.success = false ∧
      (generateMusicEndpoint env genOutcome elapsed).1.error =
        some "HTTPException: Missing REPLICATE_API_TOKEN environment variable" ∧
      (generateVizEndpoint env genOutcome elapsed).2 = [] ∧
      (generateVizEndpoint env genOutcome elapsed).1.success = false) ∧
    (missingVars env ["MUX_TOKEN_ID", "MUX_TOKEN_SECRET"] ≠ [] →
      (upload_video env saveOk uploadOutcome elapsed).events = [] ∧
      (upload_video env saveOk uploadOutcome elapsed).response.success = false ∧
      (upload_video env saveOk uploadOutcome elapsed).uploadReached = false) ∧
    (missingVars env appwriteRequiredVars ≠ [] →
      (appwriteMain env o elapsed).2 = [] ∧
      (appwriteMain env o elapsed).1.success = false ∧
      (appwriteMain env o elapsed).1.error ≠ none) ∧
    ((generatePeacefulContent env o playbackId elapsed).2.head? =
      some "generate_music") := by
  refine ⟨?_, ?_, ?_, ?_⟩
  · intro henv
    unfold generateMusicEndpoint generateVizEndpoint
    rw [henv]
    exact ⟨rfl, rfl, rfl, rfl, rfl⟩
  · intro hne
    unfold upload_video
    rcases hmv : missingVars env ["MUX_TOKEN_ID", "MUX_TOKEN_SECRET"] with _ | ⟨v, rest⟩
    · exact absurd hmv hne
    · exact ⟨rfl, rfl, rfl⟩
  · intro hne
    unfold appwriteMain
    rcases hmv : missingVars env appwriteRequiredVars with _ | ⟨v, rest⟩
    · exact absurd hmv hne
    · exact ⟨rfl, rfl, by simp⟩
  · rw [generatePeacefulContent_attempted]
    exact runStages_head _ _

/-- An environment in which every credential variable is unset. -/
def emptyEnv : String → Option String := fun _ => none

/-- Stage outcomes in which every stage succeeds. -/
def allOkOutcomes : StageOutcomes :=
  { music := Except.ok (), viz := Except.ok (), dlAudio := Except.ok (),
    dlVideo := Except.ok (), mergeLoop := Except.ok (), upload := Except.ok () }

/-- Witness for the amended C7 at the empty environment: the checking
entry points issue no network call, while generate-peaceful-content
still attempts generate_music first. -/
theorem spec_C7_witness :
    (generateMusicEndpoint emptyEnv (Except.ok "url") 3).2 = [] ∧
    (upload_video emptyEnv true (Except.error "x") 3).events = [] ∧
    (appwriteMain emptyEnv allOkOutcomes 3).2 = [] ∧
    (generatePeacefulContent emptyEnv allOkOutcomes "p" 3).2.head? =
      some "generate_music" := by
  have H := spec_C7_env_check_amended emptyEnv (Except.ok "url") true
    (Except.error "x") allOkOutcomes "p" 3
  exact ⟨(H.1 rfl).1, (H.2.1 (by decide)).1, (H.2.2.1 (by decide)).1, H.2.2.2⟩

/-- C10: the upload-to-mux endpoint never propagates an exception to the
caller: its embedding is a total function into a response body (every
branch, including the HTTPException raised for missing credential
variables and any failure of upload_to_mux, produces one); the response
body has success true exactly when the credentials are present, the
temporary save succeeds and upload_to_mux returns; every failure is
reported with status failed and a non-empty error; and whenever the Mux
upload stage is reached, the temporary saved file is deleted, on success
and on failure alike. -/
theorem spec_C10_upload_video_endpoint (env : String → Option String) (saveOk : Bool)
    (uploadOutcome : Except String MuxData) (elapsed : Nat) :
    ((upload_video env saveOk uploadOutcome elapsed).response.success = true ↔
      (missingVars env ["MUX_TOKEN_ID", "MUX_TOKEN_SECRET"] = [] ∧ saveOk = true ∧
        ∃ d, uploadOutcome = Except.ok d)) ∧
    ((upload_video env saveOk uploadOutcome elapsed).response.success = false →
      (upload_video env saveOk uploadOutcome elapsed).response.status = "failed" ∧
      (upload_video env saveOk uploadOutcome elapsed).response.error ≠ none) ∧
    ((upload_video env saveOk uploadOutcome elapsed).response.success = true →
      (upload_video env saveOk uploadOutcome elapsed).response.status = "completed") ∧
    ((upload_video env saveOk uploadOutcome elapsed).response.execution_time_seconds =
      elapsed) ∧
    ((upload_video env saveOk uploadOutcome elapsed).uploadReached = true →
      (upload_video env saveOk uploadOutcome elapsed).tempExistsAfter = false) := by
  rcases hmv : missingVars env ["MUX_TOKEN_ID", "MUX_TOKEN_SECRET"] with _ | ⟨v, rest⟩
  · cases saveOk
    · simp [upload_video, hmv]
    · rcases uploadOutcome with d | m
      · simp [upload_video, hmv]
      · simp [upload_video, hmv]
  · cases saveOk <;> simp [upload_video, hmv]

/-- An environment holding both Mux credentials. -/
def muxEnv : String → Option String := fun v =>
  if v = "MUX_TOKEN_ID" then some "token-id"
  else if v = "MUX_TOKEN_SECRET" then some "token-secret"
  else none

/-- Witness for C10 at a concrete successful run: with both credentials
present and a successful upload, the response is the success body and
the temporary file is gone. -/
theorem spec_C10_witness :
    (upload_video muxEnv true (Except.ok ⟨"a1", "p1", "u1"⟩) 4).response.success = true ∧
    (upload_video muxEnv true (Except.ok ⟨"a1", "p1", "u1"⟩) 4).tempExistsAfter = false := by
  have H := spec_C10_upload_video_endpoint muxEnv true (Except.ok ⟨"a1", "p1", "u1"⟩) 4
  exact ⟨H.1.mpr ⟨by decide, rfl, ⟨⟨"a1", "p1", "u1"⟩, rfl⟩⟩, H.2.2.2.2 rfl⟩

end PeacefulPipeline
